import Mathlib

/-!
Verification of the audio-transcription front end (`src/app/page.tsx`).

The file embeds the client-side request-orchestration logic of the page:
file validation (`handleFileChange`), base64 encoding
(`arrayBufferToBase64`, whose `window.btoa` call is the standard base64
encoder), the rate-limit counter with its scheduled decrements, and the
submission handler (`handleSubmit`), modelled as a step function on an
explicit system state with a controllable clock.
-/

namespace AudioApp

/-- Constant `MAX_FILE_SIZE = 10 * 1024 * 1024` (page.tsx line 10). -/
def MAX_FILE_SIZE : Nat := 10 * 1024 * 1024

/-- Constant `MAX_REQUESTS_PER_MINUTE = 10` (page.tsx line 11).  The request counter
is a JS number, modelled as `Int`, so the constant is an `Int`. -/
def MAX_REQUESTS_PER_MINUTE : Int := 10

/-- Constant `REQUEST_INTERVAL = 60 * 1000` milliseconds (page.tsx line 12). -/
def REQUEST_INTERVAL : Nat := 60 * 1000

/-- Constant `SUPPORTED_FORMATS` (page.tsx line 13). -/
def SUPPORTED_FORMATS : List String :=
  ["audio/mp3", "audio/mpeg", "audio/wav", "audio/x-wav", "audio/ogg"]

/-- A DOM `File` as the page uses it: only `name`, `size` and `type`
are ever read. -/
structure JSFile where
  name : String
  size : Nat
  type : String
deriving DecidableEq, Repr

/-- Predicate `isAudioFormatSupported` (page.tsx line 15):
`SUPPORTED_FORMATS.includes(file.type)`. -/
def isAudioFormatSupported (file : JSFile) : Bool :=
  SUPPORTED_FORMATS.contains file.type

/-- The React state of the `Home` component (page.tsx lines 28-33):
`file`, `transcript`, `isLoading`, `error`, `progress`, `requestCount`. -/
structure AppState where
  file : Option JSFile
  transcript : String
  isLoading : Bool
  error : String
  progress : Nat
  requestCount : Int
deriving DecidableEq, Repr

/-- The initial component state: `useState` defaults of page.tsx lines 28-33. -/
def initState : AppState :=
  { file := none, transcript := "", isLoading := false, error := "",
    progress := 0, requestCount := 0 }

/-- The size-limit error text of page.tsx line 39, with the template hole
`MAX_FILE_SIZE / 1024 / 1024` filled the way the code computes it. -/
def sizeLimitErrorMsg : String :=
  "File size exceeds the maximum limit of " ++
    toString (MAX_FILE_SIZE / 1024 / 1024) ++ "MB."

/-- The unsupported-format error text of page.tsx line 43. -/
def formatErrorMsg : String :=
  "Unsupported audio format. Please upload an MP3, WAV, or OGG file."

/-- The rate-limit error text of page.tsx line 56. -/
def rateLimitErrorMsg : String :=
  "Rate limit exceeded. Please wait before making another request."

/-- The generic transcription error text of page.tsx line 87. -/
def transcriptionErrorMsg : String :=
  "Error transcribing audio. Please try again."

/-- Handler `handleFileChange` (page.tsx lines 35-49).  The argument is
`event.target.files` (`none` = null).  The code reads `files[0]` and
immediately dereferences `.size`; on an empty list that element is
`undefined` and the dereference is a runtime `TypeError`, modelled as
result `none`. -/
def handleFileChange (files : Option (List JSFile)) (s : AppState) :
    Option AppState :=
  match files with
  | none => some s
  | some fs =>
    match fs.head? with
    | none => none
    | some selectedFile =>
      if selectedFile.size > MAX_FILE_SIZE then
        some { s with error := sizeLimitErrorMsg }
      else if ¬ isAudioFormatSupported selectedFile then
        some { s with error := formatErrorMsg }
      else
        some { s with file := some selectedFile, error := "" }

example :
    handleFileChange (some [⟨"a.mp3", 5, "audio/mp3"⟩]) initState =
      some { initState with file := some ⟨"a.mp3", 5, "audio/mp3"⟩ } := by
  decide

example :
    handleFileChange (some [⟨"a.mp3", 10485761, "audio/mp3"⟩]) initState =
      some { initState with error := sizeLimitErrorMsg } := by
  decide

example :
    handleFileChange (some [⟨"a.txt", 5, "text/plain"⟩]) initState =
      some { initState with error := formatErrorMsg } := by
  decide

/-- The outcome of the transcription attempt inside the `try` block of
`handleSubmit` (page.tsx lines 63-87): either the external call resolves
with `text` (lines 79-80), or the encoding or the call throws and the
`catch` runs. -/
inductive CallResult where
  | success (text : String)
  | failure
deriving DecidableEq, Repr

/-- The whole page-lifetime system: the component state, a millisecond
clock for `setTimeout`, and the fire times of the pending decrement
callbacks scheduled at page.tsx line 84. -/
structure Sys where
  state : AppState
  now : Nat
  timers : List Nat
deriving DecidableEq, Repr

/-- The system at page load: `initState`, clock at 0, no pending timers. -/
def initSys : Sys := { state := initState, now := 0, timers := [] }

/-- Net effect of one `handleSubmit` invocation (page.tsx lines 51-92),
given the outcome `r` of the transcription attempt.  Returns the new
system and whether the transcription attempt (encoding plus external
call) was entered at all.  Mirrors the code path by path:
`if (!file) return`; the rate-limit gate at lines 55-58; on success the
transcript store, counter increment and scheduled decrement of lines
81-84; on failure the generic error of line 87; and the `finally` block
of lines 88-91. -/
def handleSubmit (r : CallResult) (sys : Sys) : Sys × Bool :=
  match sys.state.file with
  | none => (sys, false)
  | some _ =>
    if sys.state.requestCount ≥ MAX_REQUESTS_PER_MINUTE then
      ({ sys with state := { sys.state with error := rateLimitErrorMsg } },
       false)
    else
      match r with
      | .success text =>
        ({ sys with
            state := { sys.state with
              isLoading := false, error := "", progress := 100,
              transcript := text,
              requestCount := sys.state.requestCount + 1 },
            timers := sys.timers ++ [sys.now + REQUEST_INTERVAL] },
         true)
      | .failure =>
        ({ sys with
            state := { sys.state with
              isLoading := false, error := transcriptionErrorMsg,
              progress := 100 } },
         true)

/-- The decrement callback of page.tsx line 84:
`setRequestCount(prevCount => Math.max(prevCount - 1, 0))`. -/
def fireDecrement (s : AppState) : AppState :=
  { s with requestCount := max (s.requestCount - 1) 0 }

/-- The events the page can experience: a change event on the file input,
a form submission (with the outcome of its transcription attempt), the
firing of the pending decrement at index `i` of the timer list, and the
clock advancing. -/
inductive Event where
  | fileChange (files : Option (List JSFile))
  | submit (r : CallResult)
  | timerFire (i : Nat)
  | tick (d : Nat)

/-- One step of the system.  `none` means the event cannot happen there:
a `fileChange` that faults at `files[0].size`, or a timer firing that
does not exist or whose scheduled time has not been reached. -/
def stepEvent (e : Event) (sys : Sys) : Option Sys :=
  match e with
  | .fileChange files =>
    (handleFileChange files sys.state).map fun s => { sys with state := s }
  | .submit r => some (handleSubmit r sys).1
  | .timerFire i =>
    match sys.timers[i]? with
    | none => none
    | some t =>
      if t ≤ sys.now then
        some { sys with state := fireDecrement sys.state,
                        timers := sys.timers.eraseIdx i }
      else
        none
  | .tick d => some { sys with now := sys.now + d }

/-- The states the page can reach from load by any sequence of events. -/
inductive Reachable : Sys → Prop where
  | init : Reachable initSys
  | step {sys sys' : Sys} (e : Event) :
      Reachable sys → stepEvent e sys = some sys' → Reachable sys'

/-- The inductive invariant: the counter stays within `[0, 10]`, and a
positive counter means a file is selected (the counter only rises on a
successful submission, which needs a file, and the file slot is never
cleared). -/
def Inv (sys : Sys) : Prop :=
  0 ≤ sys.state.requestCount ∧
  sys.state.requestCount ≤ MAX_REQUESTS_PER_MINUTE ∧
  (0 < sys.state.requestCount → sys.state.file ≠ none)

theorem inv_init : Inv initSys := by
  refine ⟨le_refl 0, ?_, ?_⟩ <;> simp [initSys, initState, MAX_REQUESTS_PER_MINUTE]

theorem handleFileChange_file_ne_none (files : Option (List JSFile))
    (s s' : AppState) (h : handleFileChange files s = some s')
    (hf : s.file ≠ none) : s'.file ≠ none := by
  unfold handleFileChange at h
  cases files with
  | none => simp at h; simp [← h, hf]
  | some fs =>
    cases fs with
    | nil => simp at h
    | cons f rest =>
      simp only [List.head?] at h
      split at h
      · simp at h; simp [← h, hf]
      · split at h
        · simp at h; simp [← h, hf]
        · simp at h; simp [← h]

theorem handleFileChange_requestCount (files : Option (List JSFile))
    (s s' : AppState) (h : handleFileChange files s = some s') :
    s'.requestCount = s.requestCount := by
  unfold handleFileChange at h
  cases files with
  | none => simp at h; simp [← h]
  | some fs =>
    cases fs with
    | nil => simp at h
    | cons f rest =>
      simp only [List.head?] at h
      split at h
      · simp at h; simp [← h]
      · split at h
        · simp at h; simp [← h]
        · simp at h; simp [← h]

theorem handleSubmit_no_file (r : CallResult) (sys : Sys)
    (h : sys.state.file = none) : handleSubmit r sys = (sys, false) := by
  unfold handleSubmit; rw [h]

theorem handleSubmit_rate_limited (r : CallResult) (sys : Sys) (f : JSFile)
    (h : sys.state.file = some f)
    (hc : sys.state.requestCount ≥ MAX_REQUESTS_PER_MINUTE) :
    handleSubmit r sys =
      ({ sys with state := { sys.state with error := rateLimitErrorMsg } },
       false) := by
  unfold handleSubmit; rw [h]; simp only [if_pos hc]

theorem handleSubmit_success (sys : Sys) (f : JSFile) (text : String)
    (h : sys.state.file = some f)
    (hc : ¬ sys.state.requestCount ≥ MAX_REQUESTS_PER_MINUTE) :
    handleSubmit (.success text) sys =
      ({ sys with
          state := { sys.state with
            isLoading := false, error := "", progress := 100,
            transcript := text,
            requestCount := sys.state.requestCount + 1 },
          timers := sys.timers ++ [sys.now + REQUEST_INTERVAL] },
       true) := by
  unfold handleSubmit; rw [h]; simp only [if_neg hc]

theorem handleSubmit_failure (sys : Sys) (f : JSFile)
    (h : sys.state.file = some f)
    (hc : ¬ sys.state.requestCount ≥ MAX_REQUESTS_PER_MINUTE) :
    handleSubmit .failure sys =
      ({ sys with
          state := { sys.state with
            isLoading := false, error := transcriptionErrorMsg,
            progress := 100 } },
       true) := by
  unfold handleSubmit; rw [h]; simp only [if_neg hc]

theorem stepEvent_timerFire (i : Nat) (sys : Sys) (t : Nat)
    (ht : sys.timers[i]? = some t) (htime : t ≤ sys.now) :
    stepEvent (.timerFire i) sys =
      some { sys with state := fireDecrement sys.state,
                      timers := sys.timers.eraseIdx i } := by
  simp only [stepEvent, ht, if_pos htime]

theorem stepEvent_timerFire_inv (i : Nat) (sys sys' : Sys)
    (h : stepEvent (.timerFire i) sys = some sys') :
    ∃ t, sys.timers[i]? = some t ∧ t ≤ sys.now ∧
      sys' = { sys with state := fireDecrement sys.state,
                        timers := sys.timers.eraseIdx i } := by
  simp only [stepEvent] at h
  cases ht : sys.timers[i]? with
  | none => simp [ht] at h
  | some t =>
    simp only [ht] at h
    by_cases htime : t ≤ sys.now
    · rw [if_pos htime, Option.some_inj] at h
      exact ⟨t, rfl, htime, h.symm⟩
    · rw [if_neg htime] at h; exact absurd h (by simp)

theorem inv_step (e : Event) (sys sys' : Sys) (hinv : Inv sys)
    (h : stepEvent e sys = some sys') : Inv sys' := by
  obtain ⟨h0, h10, hfile⟩ := hinv
  cases e with
  | fileChange files =>
    simp only [stepEvent, Option.map_eq_some'] at h
    obtain ⟨s, hs, rfl⟩ := h
    exact ⟨by simpa [handleFileChange_requestCount files _ _ hs] using h0,
           by simpa [handleFileChange_requestCount files _ _ hs] using h10,
           fun hpos => handleFileChange_file_ne_none files _ _ hs
             (hfile (by simpa [handleFileChange_requestCount files _ _ hs]
               using hpos))⟩
  | submit r =>
    simp only [stepEvent, Option.some_inj] at h
    cases hf : sys.state.file with
    | none =>
      rw [handleSubmit_no_file r sys hf] at h
      exact h ▸ ⟨h0, h10, hfile⟩
    | some f =>
      by_cases hc : sys.state.requestCount ≥ MAX_REQUESTS_PER_MINUTE
      · rw [handleSubmit_rate_limited r sys f hf hc] at h
        refine ⟨by simp [← h, h0], by simp [← h, h10], ?_⟩
        intro _; simp [← h, hf]
      · cases r with
        | success text =>
          rw [handleSubmit_success sys f text hf hc] at h
          refine ⟨by simp [← h]; omega, by simp [← h]; omega, ?_⟩
          intro _; simp [← h, hf]
        | failure =>
          rw [handleSubmit_failure sys f hf hc] at h
          refine ⟨by simp [← h, h0], by simp [← h, h10], ?_⟩
          intro hpos; simp [← h, hf]
  | timerFire i =>
    obtain ⟨t, ht, htime, rfl⟩ := stepEvent_timerFire_inv i sys sys' h
    refine ⟨by simp only [fireDecrement]; omega,
            by simp only [fireDecrement]; omega, ?_⟩
    intro hpos
    simp only [fireDecrement] at hpos ⊢
    exact hfile (by omega)
  | tick d =>
    simp only [stepEvent, Option.some_inj] at h
    exact ⟨by simp [← h, h0], by simp [← h, h10], by simp [← h]; exact hfile⟩

theorem reachable_inv (sys : Sys) (h : Reachable sys) : Inv sys := by
  induction h with
  | init => exact inv_init
  | step e _ hstep ih => exact inv_step e _ _ ih hstep

/-- The base64 alphabet used by `window.btoa` (RFC 4648). -/
def base64Table : List Char :=
  "ABCDEFGHIJKLMNOPQRSTUVWXYZabcdefghijklmnopqrstuvwxyz0123456789+/".data

/-- The character for a 6-bit value. -/
def encodeB64Char (n : Nat) : Char := base64Table.getD n 'A'

/-- The 6-bit value of an alphabet character (64 if not in the alphabet). -/
def decodeB64Char (c : Char) : Nat := base64Table.indexOf c

/-- Standard base64 encoding of a byte list, three bytes to four
characters, `=`-padded: the semantics of `window.btoa` applied to a
binary string of these byte values (page.tsx line 24). -/
def base64Encode : List Nat → List Char
  | [] => []
  | [a] => [encodeB64Char (a / 4), encodeB64Char (a % 4 * 16), '=', '=']
  | [a, b] => [encodeB64Char (a / 4), encodeB64Char (a % 4 * 16 + b / 16),
               encodeB64Char (b % 16 * 4), '=']
  | a :: b :: c :: rest =>
    encodeB64Char (a / 4) :: encodeB64Char (a % 4 * 16 + b / 16) ::
    encodeB64Char (b % 16 * 4 + c / 64) :: encodeB64Char (c % 64) ::
    base64Encode rest

/-- Standard base64 decoding of a character list (the semantics of
`window.atob` on well-formed input), four characters to three bytes,
honouring `=` padding. -/
def base64Decode : List Char → List Nat
  | w :: x :: y :: z :: rest =>
    if y = '=' then
      [decodeB64Char w * 4 + decodeB64Char x / 16]
    else if z = '=' then
      [decodeB64Char w * 4 + decodeB64Char x / 16,
       decodeB64Char x % 16 * 16 + decodeB64Char y / 4]
    else
      (decodeB64Char w * 4 + decodeB64Char x / 16) ::
      (decodeB64Char x % 16 * 16 + decodeB64Char y / 4) ::
      (decodeB64Char y % 4 * 64 + decodeB64Char z) ::
      base64Decode rest
  | _ => []

/-- JS `String.fromCharCode` on a byte value (page.tsx line 22). -/
def stringFromCharCode (b : Nat) : Char := Char.ofNat b

/-- JS `window.btoa`: base64-encode the code points of a binary string. -/
def btoa (s : List Char) : List Char := base64Encode (s.map Char.toNat)

/-- Encoder `arrayBufferToBase64` (page.tsx lines 17-25): view the buffer as
bytes, build the binary string by concatenating `String.fromCharCode` of
each byte (the loop of lines 21-23), and `btoa` it. -/
def arrayBufferToBase64 (buffer : List Nat) : String :=
  String.mk (btoa (buffer.map stringFromCharCode))

set_option maxRecDepth 8192 in
theorem decodeB64Char_encodeB64Char :
    ∀ n : Nat, n < 64 → decodeB64Char (encodeB64Char n) = n := by decide

set_option maxRecDepth 8192 in
theorem encodeB64Char_ne_pad :
    ∀ n : Nat, n < 64 → encodeB64Char n ≠ '=' := by decide

set_option maxRecDepth 8192 in
theorem charCode_roundtrip :
    ∀ b : Nat, b < 256 → (stringFromCharCode b).toNat = b := by decide

theorem base64Decode_base64Encode (l : List Nat) (hl : ∀ b ∈ l, b < 256) :
    base64Decode (base64Encode l) = l := by
  induction l using base64Encode.induct with
  | case1 => rfl
  | case2 a =>
    have ha : a < 256 := hl a (by simp)
    rw [base64Encode, base64Decode, if_pos rfl,
        decodeB64Char_encodeB64Char _ (by omega),
        decodeB64Char_encodeB64Char _ (by omega)]
    congr 1
    omega
  | case3 a b =>
    have ha : a < 256 := hl a (by simp)
    have hb : b < 256 := hl b (by simp)
    rw [base64Encode, base64Decode,
        if_neg (encodeB64Char_ne_pad _ (by omega)), if_pos rfl,
        decodeB64Char_encodeB64Char _ (by omega),
        decodeB64Char_encodeB64Char _ (by omega),
        decodeB64Char_encodeB64Char _ (by omega)]
    congr 1
    · omega
    · congr 1
      omega
  | case4 a b c rest ih =>
    have ha : a < 256 := hl a (by simp)
    have hb : b < 256 := hl b (by simp)
    have hc : c < 256 := hl c (by simp)
    rw [base64Encode, base64Decode,
        if_neg (encodeB64Char_ne_pad _ (by omega)),
        if_neg (encodeB64Char_ne_pad _ (by omega)),
        decodeB64Char_encodeB64Char _ (by omega),
        decodeB64Char_encodeB64Char _ (by omega),
        decodeB64Char_encodeB64Char _ (by omega),
        decodeB64Char_encodeB64Char _ (by omega),
        ih (fun x hx => hl x (by simp [hx]))]
    congr 1
    · omega
    · congr 1
      · omega
      · congr 1
        omega

theorem map_charCode_roundtrip (l : List Nat) (hl : ∀ b ∈ l, b < 256) :
    (l.map stringFromCharCode).map Char.toNat = l := by
  induction l with
  | nil => rfl
  | cons x xs ih =>
    simp only [List.map_cons, List.cons.injEq]
    exact ⟨charCode_roundtrip x (hl x (by simp)),
           ih fun b hb => hl b (by simp [hb])⟩

/-- A valid selected file, used to build concrete executions. -/
def demoFile : JSFile := { name := "a.mp3", size := 4, type := "audio/mp3" }

/-- The system after selecting `demoFile` and submitting successfully
`n` times (transcript "t" each time) with the clock left at 0. -/
def demoState (n : Nat) : Sys :=
  { state := { file := some demoFile, transcript := "t", isLoading := false,
               error := "", progress := 100, requestCount := (n : Int) },
    now := 0, timers := List.replicate n REQUEST_INTERVAL }

theorem demo_step (n : Nat) (hn : n < 10) :
    stepEvent (.submit (.success "t")) (demoState n) =
      some (demoState (n + 1)) := by
  have hc : ¬ (demoState n).state.requestCount ≥ MAX_REQUESTS_PER_MINUTE := by
    simp only [demoState, MAX_REQUESTS_PER_MINUTE, not_le]
    exact_mod_cast hn
  simp only [stepEvent,
    handleSubmit_success (demoState n) demoFile "t" rfl hc, Option.some_inj]
  simp [demoState, List.replicate_succ', Sys.mk.injEq, AppState.mk.injEq]

theorem demo_reachable (n : Nat) (h1 : 1 ≤ n) (h10 : n ≤ 10) :
    Reachable (demoState n) := by
  induction n with
  | zero => omega
  | succ m ih =>
    by_cases hm : m = 0
    · subst hm
      have s1 : stepEvent (.fileChange (some [demoFile])) initSys =
          some ⟨{ initState with file := some demoFile }, 0, []⟩ := by decide
      have s2 : stepEvent (.submit (.success "t"))
          ⟨{ initState with file := some demoFile }, 0, []⟩ =
          some (demoState 1) := by decide
      exact .step _ (.step _ .init s1) s2
    · exact .step _ (ih (by omega) (by omega)) (demo_step m (by omega))

/-- C1: in any reachable system whose rate counter is at or above the
maximum of 10, any submission attempt is rejected: the rate-limit error
message is set, the transcription attempt (hence the external call) is
never entered, and the file, transcript, loading flag, progress, counter,
clock and pending timers are all unchanged. -/
theorem c1_rate_limited_submission_rejected (sys : Sys) (r : CallResult)
    (hr : Reachable sys)
    (hc : sys.state.requestCount ≥ MAX_REQUESTS_PER_MINUTE) :
    handleSubmit r sys =
      ({ sys with state := { sys.state with error := rateLimitErrorMsg } },
       false) := by
  obtain ⟨h0, h10, hfile⟩ := reachable_inv sys hr
  have hpos : 0 < sys.state.requestCount := by
    have : (0 : Int) < MAX_REQUESTS_PER_MINUTE := by decide
    omega
  cases hf : sys.state.file with
  | none => exact absurd hf (hfile hpos)
  | some f => exact handleSubmit_rate_limited r sys f hf hc

theorem c1_witness :
    handleSubmit .failure (demoState 10) =
      ({ demoState 10 with
          state := { (demoState 10).state with error := rateLimitErrorMsg } },
       false) :=
  c1_rate_limited_submission_rejected (demoState 10) .failure
    (demo_reachable 10 (by decide) (by decide)) (by decide)

/-- C2: in every state reachable from page load by any sequence of file
selections, submissions and scheduled decrement firings, the counter
satisfies `0 ≤ requestCount ≤ MAX_REQUESTS_PER_MINUTE`. -/
theorem c2_counter_invariant (sys : Sys) (hr : Reachable sys) :
    0 ≤ sys.state.requestCount ∧
      sys.state.requestCount ≤ MAX_REQUESTS_PER_MINUTE :=
  ⟨(reachable_inv sys hr).1, (reachable_inv sys hr).2.1⟩

theorem c2_witness :
    0 ≤ (demoState 10).state.requestCount ∧
      (demoState 10).state.requestCount ≤ MAX_REQUESTS_PER_MINUTE :=
  c2_counter_invariant (demoState 10)
    (demo_reachable 10 (by decide) (by decide))

/-- C3: a successful submission (file selected, gate passed) increments
the counter by exactly one and appends a decrement timer due
`REQUEST_INTERVAL` (60 s) after the current time; and any decrement
firing can only happen once the clock has reached that due time, and
sets the counter to `max (count - 1) 0`, which is never negative. -/
theorem c3_increment_then_floored_decrement (sys : Sys) (f : JSFile)
    (text : String) (hf : sys.state.file = some f)
    (hc : sys.state.requestCount < MAX_REQUESTS_PER_MINUTE) :
    ((handleSubmit (.success text) sys).1.state.requestCount =
        sys.state.requestCount + 1 ∧
      (handleSubmit (.success text) sys).1.timers =
        sys.timers ++ [sys.now + REQUEST_INTERVAL]) ∧
    (∀ (sys₂ sys₃ : Sys) (i t : Nat), sys₂.timers[i]? = some t →
      stepEvent (.timerFire i) sys₂ = some sys₃ →
      t ≤ sys₂.now ∧
      sys₃.state.requestCount = max (sys₂.state.requestCount - 1) 0 ∧
      0 ≤ sys₃.state.requestCount) := by
  constructor
  · rw [handleSubmit_success sys f text hf (not_le.mpr hc)]
    exact ⟨rfl, rfl⟩
  · intro sys₂ sys₃ i t ht hstep
    obtain ⟨t', ht', htime, rfl⟩ := stepEvent_timerFire_inv i sys₂ sys₃ hstep
    rw [ht] at ht'
    cases ht'
    refine ⟨htime, rfl, ?_⟩
    simp only [fireDecrement]
    omega

theorem c3_witness :
    (handleSubmit (.success "hi") (demoState 1)).1.state.requestCount =
        (demoState 1).state.requestCount + 1 ∧
      (handleSubmit (.success "hi") (demoState 1)).1.timers =
        (demoState 1).timers ++ [(demoState 1).now + REQUEST_INTERVAL] :=
  (c3_increment_then_floored_decrement (demoState 1) demoFile "hi" rfl
    (by decide)).1

/-- C4: only successful completions consume a rate-limit slot.  File
selection (whatever its outcome), a submission with no file, a
rate-limited submission, and a submission whose transcription attempt
fails all leave the counter unchanged and schedule no decrement timer. -/
theorem c4_only_success_consumes_slot :
    (∀ (files : Option (List JSFile)) (sys sys' : Sys),
        stepEvent (.fileChange files) sys = some sys' →
        sys'.state.requestCount = sys.state.requestCount ∧
        sys'.timers = sys.timers) ∧
    (∀ (r : CallResult) (sys : Sys), sys.state.file = none →
        handleSubmit r sys = (sys, false)) ∧
    (∀ (r : CallResult) (sys : Sys),
        sys.state.requestCount ≥ MAX_REQUESTS_PER_MINUTE →
        (handleSubmit r sys).1.state.requestCount = sys.state.requestCount ∧
        (handleSubmit r sys).1.timers = sys.timers) ∧
    (∀ sys : Sys,
        (handleSubmit .failure sys).1.state.requestCount =
          sys.state.requestCount ∧
        (handleSubmit .failure sys).1.timers = sys.timers) := by
  refine ⟨?_, ?_, ?_, ?_⟩
  · intro files sys sys' h
    simp only [stepEvent, Option.map_eq_some'] at h
    obtain ⟨s, hs, rfl⟩ := h
    exact ⟨handleFileChange_requestCount files _ _ hs, rfl⟩
  · intro r sys h
    exact handleSubmit_no_file r sys h
  · intro r sys hc
    cases hf : sys.state.file with
    | none => rw [handleSubmit_no_file r sys hf]; exact ⟨rfl, rfl⟩
    | some f => rw [handleSubmit_rate_limited r sys f hf hc]; exact ⟨rfl, rfl⟩
  · intro sys
    cases hf : sys.state.file with
    | none => rw [handleSubmit_no_file .failure sys hf]; exact ⟨rfl, rfl⟩
    | some f =>
      by_cases hc : sys.state.requestCount ≥ MAX_REQUESTS_PER_MINUTE
      · rw [handleSubmit_rate_limited .failure sys f hf hc]; exact ⟨rfl, rfl⟩
      · rw [handleSubmit_failure sys f hf hc]; exact ⟨rfl, rfl⟩

theorem c4_witness :
    (handleSubmit .failure (demoState 1)).1.state.requestCount =
        (demoState 1).state.requestCount ∧
      (handleSubmit .failure (demoState 1)).1.timers =
        (demoState 1).timers :=
  c4_only_success_consumes_slot.2.2.2 (demoState 1)

/-- C5: for every byte sequence (elements in `0..255`), encoding with
`arrayBufferToBase64` and then applying standard base64 decoding
reproduces the original byte sequence exactly. -/
theorem c5_base64_roundtrip (l : List Nat) (hl : ∀ b ∈ l, b < 256) :
    base64Decode (arrayBufferToBase64 l).data = l := by
  show base64Decode
      (base64Encode ((l.map stringFromCharCode).map Char.toNat)) = l
  rw [map_charCode_roundtrip l hl]
  exact base64Decode_base64Encode l hl

theorem c5_witness :
    base64Decode (arrayBufferToBase64 (List.range 256)).data =
      List.range 256 :=
  c5_base64_roundtrip (List.range 256) fun _ hb => List.mem_range.mp hb

/-- C6: a candidate file strictly larger than 10 MiB is rejected at
selection time: the size-limit error is set and nothing else of the
state — in particular the previously selected file — changes. -/
theorem c6_oversize_selection_rejected (f : JSFile) (rest : List JSFile)
    (s : AppState) (h : f.size > MAX_FILE_SIZE) :
    handleFileChange (some (f :: rest)) s =
      some { s with error := sizeLimitErrorMsg } := by
  simp only [handleFileChange, List.head?, if_pos h]

theorem c6_witness :
    handleFileChange (some [{ name := "big.mp3", size := 10485761,
                              type := "audio/mp3" }]) initState =
      some { initState with error := sizeLimitErrorMsg } :=
  c6_oversize_selection_rejected _ [] initState (by decide)

/-- C7: for a candidate file within the size limit, selection is decided
by the MIME allow-list: a type outside `SUPPORTED_FORMATS` is rejected
with the format error (previous file untouched), a type in the list is
stored and any prior error is cleared. -/
theorem c7_format_allow_list (f : JSFile) (rest : List JSFile)
    (s : AppState) (hsize : f.size ≤ MAX_FILE_SIZE) :
    (f.type ∉ SUPPORTED_FORMATS →
      handleFileChange (some (f :: rest)) s =
        some { s with error := formatErrorMsg }) ∧
    (f.type ∈ SUPPORTED_FORMATS →
      handleFileChange (some (f :: rest)) s =
        some { s with file := some f, error := "" }) := by
  constructor
  · intro hmem
    have hfmt : ¬ isAudioFormatSupported f = true := by
      simpa [isAudioFormatSupported] using hmem
    simp only [handleFileChange, List.head?, if_neg (not_lt.mpr hsize),
      if_pos hfmt]
  · intro hmem
    have hfmt : isAudioFormatSupported f = true := by
      simpa [isAudioFormatSupported] using hmem
    simp only [handleFileChange, List.head?, if_neg (not_lt.mpr hsize), hfmt,
      not_true, if_neg (by simp : ¬ (False : Prop))]

theorem c7_witness :
    (handleFileChange (some [{ name := "a.txt", size := 5,
                               type := "text/plain" }]) initState =
        some { initState with error := formatErrorMsg }) ∧
    (handleFileChange (some [{ name := "a.mp3", size := 5,
                               type := "audio/mp3" }]) initState =
        some { initState with
          file := some { name := "a.mp3", size := 5, type := "audio/mp3" },
          error := "" }) :=
  ⟨(c7_format_allow_list _ [] initState (by decide)).1 (by decide),
   (c7_format_allow_list _ [] initState (by decide)).2 (by decide)⟩

/-- C8: a submission whose external call resolves with `text` ends with
the stored transcript exactly equal to `text`, the loading flag false,
and progress 100. -/
theorem c8_success_postcondition (sys : Sys) (f : JSFile) (text : String)
    (hf : sys.state.file = some f)
    (hc : sys.state.requestCount < MAX_REQUESTS_PER_MINUTE) :
    (handleSubmit (.success text) sys).1.state.transcript = text ∧
    (handleSubmit (.success text) sys).1.state.isLoading = false ∧
    (handleSubmit (.success text) sys).1.state.progress = 100 := by
  rw [handleSubmit_success sys f text hf (not_le.mpr hc)]
  exact ⟨rfl, rfl, rfl⟩

theorem c8_witness :
    (handleSubmit (.success "hello") (demoState 1)).1.state.transcript =
        "hello" ∧
      (handleSubmit (.success "hello") (demoState 1)).1.state.isLoading =
        false ∧
      (handleSubmit (.success "hello") (demoState 1)).1.state.progress =
        100 :=
  c8_success_postcondition (demoState 1) demoFile "hello" rfl (by decide)

/-- C9: a submission whose encoding step or external call fails leaves
the transcript unchanged, sets the generic transcription error, clears
the loading flag and sets progress to 100. -/
theorem c9_failure_postcondition (sys : Sys) (f : JSFile)
    (hf : sys.state.file = some f)
    (hc : sys.state.requestCount < MAX_REQUESTS_PER_MINUTE) :
    (handleSubmit .failure sys).1.state.transcript =
        sys.state.transcript ∧
    (handleSubmit .failure sys).1.state.error = transcriptionErrorMsg ∧
    (handleSubmit .failure sys).1.state.isLoading = false ∧
    (handleSubmit .failure sys).1.state.progress = 100 := by
  rw [handleSubmit_failure sys f hf (not_le.mpr hc)]
  exact ⟨rfl, rfl, rfl, rfl⟩

theorem c9_witness :
    (handleSubmit .failure (demoState 1)).1.state.transcript =
        (demoState 1).state.transcript ∧
      (handleSubmit .failure (demoState 1)).1.state.error =
        transcriptionErrorMsg ∧
      (handleSubmit .failure (demoState 1)).1.state.isLoading = false ∧
      (handleSubmit .failure (demoState 1)).1.state.progress = 100 :=
  c9_failure_postcondition (demoState 1) demoFile rfl (by decide)

/-- C10: with a non-null files list, `handleFileChange` dereferences
`files[0].size` with no emptiness check, so it faults exactly on the
empty list: totality needs the non-emptiness precondition (a null files
list is simply ignored). -/
theorem c10_files_index_totality :
    (∀ s : AppState, handleFileChange none s = some s) ∧
    (∀ (fs : List JSFile) (s : AppState),
        handleFileChange (some fs) s = none ↔ fs = []) := by
  constructor
  · intro s; rfl
  · intro fs s
    cases fs with
    | nil => simp [handleFileChange]
    | cons f rest =>
      simp only [handleFileChange, List.head?]
      constructor
      · intro h
        split at h
        · exact absurd h (by simp)
        · split at h
          · exact absurd h (by simp)
          · exact absurd h (by simp)
      · intro h; exact absurd h (by simp)

theorem c10_witness : handleFileChange (some []) initState = none :=
  (c10_files_index_totality.2 [] initState).mpr rfl

end AudioApp
